import Mathlib

/-!
Shallow embedding of the codex-mcp-rust server core (src/codex.rs, src/error.rs).

The embedding models:
  - the dynamic JSON values the child emits (`Json`), with the accessors the
    source uses (`serde_json::Value::get`, `as_str`);
  - a decoded stdout line (`Line`): either a decoded JSON value or a decode
    failure carrying the decoder message and the raw line text;
  - the per-line aggregation state of `execute_codex` (`RunState`) and its
    per-line step (`processLine`), mirroring src/codex.rs lines 264-340;
  - the bounded wait-for-exit outcome (`WaitOutcome`, `applyWait`,
    `waitActions`), mirroring lines 342-364;
  - finalization into a `CodexResult` (`finalize`), lines 366-404;
  - the argument-vector builder (`buildArgs`), lines 188-236 (non-Windows
    path: the prompt is passed unescaped);
  - serde defaulting of the request fields (`deserializeParams`), lines 44-92;
  - the error enum of src/error.rs (`CodexError`) and the outer tool wrapper
    that converts an `Err` into a failing result (`codexWrap`), lines 154-173.
-/

/-- Dynamic JSON value, as produced by serde_json parsing one stdout line.
Objects are association lists; key lookup returns the first binding, which
matches a parsed serde_json object (keys are unique after parsing). -/
inductive Json where
  | null : Json
  | bool (b : Bool) : Json
  | num (n : Int) : Json
  | str (s : String) : Json
  | arr (elems : List Json) : Json
  | obj (fields : List (String × Json)) : Json

/-- Model of serde_json `Value::get(key)` on a value: field lookup on an
object, `none` on every other variant. -/
def Json.get : Json → String → Option Json
  | .obj fields, key => fields.lookup key
  | _, _ => none

/-- Model of serde_json `Value::as_str()`. -/
def Json.asStr : Json → Option String
  | .str s => some s
  | _ => none

/-- Decidable substring test on character lists: does the second list start
with the first? Mirrors the prefix test underlying Rust `str::contains`. -/
def leadsWith : List Char → List Char → Bool
  | [], _ => true
  | _ :: _, [] => false
  | a :: as, b :: bs => a == b && leadsWith as bs

/-- Does `s` contain `pat` as a contiguous sublist? -/
def containsSub (pat : List Char) : List Char → Bool
  | [] => leadsWith pat []
  | b :: bs => leadsWith pat (b :: bs) || containsSub pat bs

/-- Model of Rust `str::contains(pat)`: substring containment. -/
def strContainsSub (s pat : String) : Bool :=
  containsSub pat.data s.data

/-- Model of Rust `str::starts_with(pat)`. -/
def strStartsWith (s pat : String) : Bool :=
  leadsWith pat.data s.data

/-- Model of Rust `str::trim`: drop whitespace from both ends. The source of
this repository never trims the override strings; this definition only serves
to state claims that speak about trimming. -/
def trimStr (s : String) : String :=
  String.mk (((s.data.dropWhile Char.isWhitespace).reverse.dropWhile Char.isWhitespace).reverse)

/-- One decoded stdout line handed to the aggregation loop: either the JSON
value `serde_json::from_str` produced, or a decode failure carrying the decoder
error message and the raw (trimmed, non-empty) line text. -/
inductive Line where
  | ok (j : Json) : Line
  | err (emsg : String) (raw : String) : Line

/-- The mutable aggregation state of `execute_codex` (src/codex.rs lines
264-269): retained events, accumulated reply, session identity, error log,
and the boolean verdict. -/
structure RunState where
  all_messages : Option (List Json)
  agent_messages : String
  thread_id : Option String
  err_message : String
  success : Bool

/-- Initial aggregation state: retention is a list only when
`return_all_messages` was requested; the verdict starts true. -/
def initState (retain : Bool) : RunState :=
  { all_messages := if retain then some [] else none
    agent_messages := ""
    thread_id := none
    err_message := ""
    success := true }

/-- One iteration of the while-let loop of `execute_codex` (src/codex.rs lines
271-340) on an already decoded line. Returns the updated state and whether the
loop breaks (a `turn.completed` type, unless skipped by the reconnect
`continue`). -/
def processLine (s : RunState) : Line → RunState × Bool
  | .err emsg raw =>
    ({ s with
        success := false
        err_message := s.err_message ++ "\n\n[json decode error] " ++ emsg ++ ": " ++ raw },
      false)
  | .ok j =>
    let s := { s with all_messages := s.all_messages.map (fun a => a ++ [j]) }
    let s :=
      match j.get "item" with
      | some item =>
        match (item.get "type").bind Json.asStr with
        | some itemType =>
          if itemType == "agent_message" then
            match (item.get "text").bind Json.asStr with
            | some text => { s with agent_messages := s.agent_messages ++ text }
            | none => s
          else s
        | none => s
      | none => s
    let s :=
      match (j.get "thread_id").bind Json.asStr with
      | some tid => { s with thread_id := some tid }
      | none => s
    match (j.get "type").bind Json.asStr with
    | some msgType =>
      let s :=
        if strContainsSub msgType "fail" then
          let s := { s with success := false }
          match j.get "error" with
          | some errObj =>
            match (errObj.get "message").bind Json.asStr with
            | some errorMsg =>
              { s with err_message := s.err_message ++ "\n\n[codex error] " ++ errorMsg }
            | none => s
          | none => s
        else s
      if strContainsSub msgType "error" then
        match (j.get "message").bind Json.asStr with
        | some errorMsg =>
          if strStartsWith errorMsg "Reconnecting..." then
            (s, false)
          else
            ({ s with
                success := false
                err_message := s.err_message ++ "\n\n[codex error] " ++ errorMsg },
              msgType == "turn.completed")
        | none => (s, msgType == "turn.completed")
      else (s, msgType == "turn.completed")
    | none => (s, false)

/-- The while-let loop over the decoded line stream, stopping early when a
line signals a break. -/
def runLines (s : RunState) : List Line → RunState
  | [] => s
  | l :: rest =>
    match processLine s l with
    | (s2, brk) => if brk then s2 else runLines s2 rest

/-- Outcome of the bounded wait-for-exit (src/codex.rs lines 343-364):
the child exited (with its status success flag and debug rendering), the wait
itself errored, or the 5-second ceiling elapsed. -/
inductive WaitOutcome where
  | exited (ok : Bool) (statusDebug : String) : WaitOutcome
  | waitErr (emsg : String) : WaitOutcome
  | timedOut : WaitOutcome

/-- Effect of the wait-for-exit outcome on the aggregation state (src/codex.rs
lines 344-364). The debug rendering of the 5-second Duration is "5s". -/
def applyWait (s : RunState) : WaitOutcome → RunState
  | .exited ok statusDebug =>
    if ok then s
    else
      { s with
          success := false
          err_message := s.err_message ++ "\n\n[codex exit] " ++ statusDebug }
  | .waitErr emsg =>
    { s with
        success := false
        err_message := s.err_message ++ "\n\n[codex wait error] " ++ emsg }
  | .timedOut =>
    { s with
        success := false
        err_message := s.err_message ++ "\n\n[codex wait timeout] 5s" }

/-- Child-handle action taken by the supervisor in each wait outcome.
Only the timeout path kills the child and awaits it again with the result
ignored (src/codex.rs lines 361-362). -/
inductive ChildAction where
  | kill : ChildAction
  | waitAgain : ChildAction

/-- Actions performed on the child handle per wait outcome. -/
def waitActions : WaitOutcome → List ChildAction
  | .timedOut => [ChildAction.kill, ChildAction.waitAgain]
  | _ => []

/-- The structured result returned by the codex tool (src/codex.rs lines
94-115). -/
structure CodexResult where
  success : Bool
  session_id : Option String
  agent_messages : Option String
  error : Option String
  all_messages : Option (List Json)

/-- Finalization of `execute_codex` (src/codex.rs lines 366-404): postcondition
checks prepend their annotations, then the result is built from the state. -/
def finalize (s : RunState) : CodexResult :=
  let s :=
    if s.thread_id.isNone then
      { s with
          success := false
          err_message :=
            "Failed to get `SESSION_ID` from the codex session.\n\n" ++ s.err_message }
    else s
  let s :=
    if s.agent_messages == "" then
      { s with
          success := false
          err_message :=
            "Failed to get `agent_messages` from the codex session.\n\nYou can try to set `return_all_messages` to `True` to get the full reasoning information. " ++ s.err_message }
    else s
  if s.success then
    { success := true
      session_id := s.thread_id
      agent_messages := some s.agent_messages
      error := none
      all_messages := s.all_messages }
  else
    { success := false
      session_id := s.thread_id
      agent_messages := if s.agent_messages == "" then none else some s.agent_messages
      error := some s.err_message
      all_messages := s.all_messages }

/-- The streaming-and-finalization core of `execute_codex`, as a pure function
of the decoded line stream and the wait-for-exit outcome. -/
def execFromLines (retain : Bool) (lines : List Line) (w : WaitOutcome) : CodexResult :=
  finalize (applyWait (runLines (initState retain) lines) w)

/-- Sandbox policy for model-generated commands (src/codex.rs lines 20-31). -/
inductive SandboxPolicy where
  | readOnly : SandboxPolicy
  | workspaceWrite : SandboxPolicy
  | dangerFullAccess : SandboxPolicy

/-- Kebab-case string form of a sandbox policy (src/codex.rs lines 33-41). -/
def SandboxPolicy.asStr : SandboxPolicy → String
  | .readOnly => "read-only"
  | .workspaceWrite => "workspace-write"
  | .dangerFullAccess => "danger-full-access"

/-- Parameters of the codex tool after deserialization (src/codex.rs lines
44-88). Paths are modelled as strings. -/
structure CodexParams where
  prompt : String
  cd : String
  sandbox : SandboxPolicy
  session_id : Option String
  skip_git_repo_check : Bool
  return_all_messages : Bool
  image : List String
  model : Option String
  yolo : Bool
  profile : Option String

/-- The serde default for `skip_git_repo_check` (src/codex.rs lines 90-92). -/
def default_true : Bool := true

/-- An incoming request before serde defaulting: each field that carries a
serde default attribute is optional here. -/
structure CodexRequest where
  prompt : String
  cd : String
  sandbox : Option SandboxPolicy
  session_id : Option String
  skip_git_repo_check : Option Bool
  return_all_messages : Option Bool
  image : Option (List String)
  model : Option String
  yolo : Option Bool
  profile : Option String

/-- Serde deserialization of a request into `CodexParams`: `#[serde(default)]`
fills `Default::default()` (ReadOnly for the sandbox, false for booleans, the
empty list for images) and `#[serde(default = "default_true")]` fills
`default_true` for `skip_git_repo_check`. -/
def deserializeParams (r : CodexRequest) : CodexParams :=
  { prompt := r.prompt
    cd := r.cd
    sandbox := r.sandbox.getD SandboxPolicy.readOnly
    session_id := r.session_id
    skip_git_repo_check := r.skip_git_repo_check.getD default_true
    return_all_messages := r.return_all_messages.getD false
    image := r.image.getD []
    model := r.model
    yolo := r.yolo.getD false
    profile := r.profile }

/-- Conditional flag chunk for the model and profile overrides (src/codex.rs
lines 203-213): the flag and its value are emitted iff the override is present
and non-empty (no trimming in the source). -/
def optFlag (flag : String) : Option String → List String
  | some v => if v == "" then [] else [flag, v]
  | none => []

/-- Conditional resume chunk (src/codex.rs lines 224-228). -/
def resumeArgs : Option String → List String
  | some sid => if sid == "" then [] else ["resume", sid]
  | none => []

/-- The child argument vector built by `execute_codex` (src/codex.rs lines
188-236), excluding the program path; non-Windows path, so the prompt is
passed unescaped after the end-of-flags marker. -/
def buildArgs (p : CodexParams) : List String :=
  ["exec", "--sandbox", p.sandbox.asStr, "--cd", p.cd, "--json"]
    ++ (if p.image.isEmpty then [] else ["--image", String.intercalate "," p.image])
    ++ optFlag "--model" p.model
    ++ optFlag "--profile" p.profile
    ++ (if p.yolo then ["--yolo"] else [])
    ++ (if p.skip_git_repo_check then ["--skip-git-repo-check"] else [])
    ++ resumeArgs p.session_id
    ++ ["--", p.prompt]

/-- Errors of src/error.rs. The path of `invalidWorkingDirectory` is carried
in its Debug rendering; I/O and JSON errors carry their display strings. -/
inductive CodexError where
  | executableNotFound : CodexError
  | invalidWorkingDirectory (pathDebug : String) : CodexError
  | stdoutCaptureFailed : CodexError
  | io (emsg : String) : CodexError
  | jsonParseError (emsg : String) : CodexError

/-- Display strings of `CodexError`, from the `#[error(...)]` attributes of
src/error.rs. -/
def CodexError.toString : CodexError → String
  | .executableNotFound =>
    "Codex executable not found. Please ensure 'codex' is installed and in PATH."
  | .invalidWorkingDirectory pathDebug =>
    "Working directory does not exist or is not a directory: " ++ pathDebug
  | .stdoutCaptureFailed => "Failed to capture codex stdout (pipe not available)."
  | .io emsg => "I/O error while running codex: " ++ emsg
  | .jsonParseError emsg => "Failed to parse JSON: " ++ emsg

/-- The outer `codex` tool wrapper (src/codex.rs lines 154-173): an `Err` from
`execute_codex` is converted into a failing `CodexResult` with the error
display string; an `Ok` result is returned as is. The wrapper is total, so the
tool always answers with a structured result. -/
def codexWrap (out : Except CodexError CodexResult) : CodexResult :=
  match out with
  | .ok r => r
  | .error e =>
    { success := false
      session_id := none
      agent_messages := none
      error := some e.toString
      all_messages := none }

/-- A stdout line carrying one agent-message fragment. -/
def agentLine (text : String) : Line :=
  Line.ok (Json.obj [("item", Json.obj [("type", Json.str "agent_message"), ("text", Json.str text)])])

/-- A stdout line carrying the session identity. -/
def threadLine (tid : String) : Line :=
  Line.ok (Json.obj [("thread_id", Json.str tid)])

/-- The completion marker line. -/
def turnCompletedLine : Line :=
  Line.ok (Json.obj [("type", Json.str "turn.completed")])

/-- Did the wait-for-exit outcome leave the verdict untouched? Only a clean
in-time exit does. -/
def waitClean : WaitOutcome → Bool
  | .exited ok _ => ok
  | _ => false

theorem applyWait_success (s : RunState) (w : WaitOutcome) :
    (applyWait s w).success = (s.success && waitClean w) := by
  cases w with
  | exited ok st =>
    cases ok <;> simp [applyWait, waitClean]
  | waitErr e => simp [applyWait, waitClean]
  | timedOut => simp [applyWait, waitClean]

theorem applyWait_thread_id (s : RunState) (w : WaitOutcome) :
    (applyWait s w).thread_id = s.thread_id := by
  cases w with
  | exited ok st => cases ok <;> simp [applyWait]
  | waitErr e => simp [applyWait]
  | timedOut => simp [applyWait]

theorem applyWait_agent_messages (s : RunState) (w : WaitOutcome) :
    (applyWait s w).agent_messages = s.agent_messages := by
  cases w with
  | exited ok st => cases ok <;> simp [applyWait]
  | waitErr e => simp [applyWait]
  | timedOut => simp [applyWait]

theorem finalize_success_iff (s : RunState) :
    (finalize s).success = true ↔
      (s.success = true ∧ s.thread_id.isSome = true ∧ s.agent_messages ≠ "") := by
  unfold finalize
  rcases s with ⟨am, ag, tid, em, suc⟩
  cases tid <;> cases suc <;>
    by_cases hag : ag = "" <;>
      simp_all

theorem finalize_error_isSome (s : RunState) :
    (finalize s).error.isSome = !(finalize s).success := by
  unfold finalize
  rcases s with ⟨am, ag, tid, em, suc⟩
  cases tid <;> cases suc <;>
    by_cases hag : ag = "" <;>
      simp_all

theorem processLine_success_mono (s : RunState) (l : Line)
    (h : s.success = false) : ((processLine s l).1).success = false := by
  cases l with
  | err e raw => simp [processLine]
  | ok j =>
    simp only [processLine]
    repeat' split
    all_goals simp_all

theorem strAppend_assoc (a b c : String) : a ++ b ++ c = a ++ (b ++ c) := by
  rcases a with ⟨la⟩
  rcases b with ⟨lb⟩
  rcases c with ⟨lc⟩
  show String.mk (la ++ lb ++ lc) = String.mk (la ++ (lb ++ lc))
  rw [List.append_assoc]

theorem str_empty_append (s : String) : "" ++ s = s := by
  rcases s with ⟨l⟩
  rfl

/-- On a failing state, finalize reports an error text that ends with the
accumulated error log (the postcondition annotations are prepended, never
appended). -/
theorem finalize_error_suffix (s : RunState) (h : s.success = false) :
    ∃ p, (finalize s).error = some (p ++ s.err_message) := by
  rcases s with ⟨am, ag, tid, em, suc⟩
  simp only at h
  subst h
  unfold finalize
  cases tid with
  | none =>
    by_cases hag : ag = ""
    · subst hag
      refine ⟨"Failed to get `agent_messages` from the codex session.\n\nYou can try to set `return_all_messages` to `True` to get the full reasoning information. " ++ "Failed to get `SESSION_ID` from the codex session.\n\n", ?_⟩
      rw [strAppend_assoc]
      exact rfl
    · exact ⟨"Failed to get `SESSION_ID` from the codex session.\n\n", by simp [hag]⟩
  | some tid =>
    by_cases hag : ag = ""
    · exact ⟨"Failed to get `agent_messages` from the codex session.\n\nYou can try to set `return_all_messages` to `True` to get the full reasoning information. ", by simp [hag]⟩
    · exact ⟨"", by simp [hag, str_empty_append]⟩

/-- C1: the four-line stream with two agent-message fragments, a thread_id and
the completion marker, followed by a clean in-time child exit, yields
success=true, session_id "abc123", the concatenated reply "Hello world" and no
error text. -/
theorem hello_world_stream_result (statusDebug : String) :
    execFromLines false
      [agentLine "Hello ", agentLine "world", threadLine "abc123", turnCompletedLine]
      (WaitOutcome.exited true statusDebug) =
    { success := true
      session_id := some "abc123"
      agent_messages := some "Hello world"
      error := none
      all_messages := none } := rfl

/-- C5: when the wait-for-exit ceiling elapses, the child is killed and
awaited again with the result ignored, and the final result is a failure whose
error text carries the wait-timeout annotation. -/
theorem wait_timeout_reported (retain : Bool) (lines : List Line) :
    (execFromLines retain lines WaitOutcome.timedOut).success = false ∧
    (∃ p, (execFromLines retain lines WaitOutcome.timedOut).error =
      some (p ++ "\n\n[codex wait timeout] 5s")) ∧
    waitActions WaitOutcome.timedOut = [ChildAction.kill, ChildAction.waitAgain] := by
  set S := runLines (initState retain) lines with hS
  have hsucc : (applyWait S WaitOutcome.timedOut).success = false := by
    rw [applyWait_success]
    simp [waitClean]
  have herr : (applyWait S WaitOutcome.timedOut).err_message =
      S.err_message ++ "\n\n[codex wait timeout] 5s" := rfl
  refine ⟨?_, ?_, rfl⟩
  · have hiff := finalize_success_iff (applyWait S WaitOutcome.timedOut)
    cases hfin : (finalize (applyWait S WaitOutcome.timedOut)).success with
    | false => exact hfin
    | true =>
      rw [hfin] at hiff
      have := hiff.mp rfl
      rw [hsucc] at this
      exact absurd this.1 (by simp)
  · obtain ⟨p, hp⟩ := finalize_error_suffix (applyWait S WaitOutcome.timedOut) hsucc
    rw [herr, ← strAppend_assoc] at hp
    exact ⟨p ++ S.err_message, hp⟩

/-- C7: a line that fails JSON decoding flips the verdict and appends a decode
annotation, but the loop continues: the fold over the remaining lines starts
from that flipped state, and on a concrete stream the later fragments and
thread identity are still extracted. -/
theorem decode_failure_nonfatal (s : RunState) (emsg raw : String) (rest : List Line) :
    processLine s (Line.err emsg raw) =
      ({ s with
          success := false
          err_message := s.err_message ++ "\n\n[json decode error] " ++ emsg ++ ": " ++ raw },
        false) ∧
    runLines s (Line.err emsg raw :: rest) =
      runLines
        { s with
            success := false
            err_message := s.err_message ++ "\n\n[json decode error] " ++ emsg ++ ": " ++ raw }
        rest ∧
    (execFromLines false
        [Line.err emsg raw, agentLine "Hello ", agentLine "world",
         threadLine "abc123", turnCompletedLine]
        (WaitOutcome.exited true "st")).success = false ∧
    (execFromLines false
        [Line.err emsg raw, agentLine "Hello ", agentLine "world",
         threadLine "abc123", turnCompletedLine]
        (WaitOutcome.exited true "st")).session_id = some "abc123" ∧
    (execFromLines false
        [Line.err emsg raw, agentLine "Hello ", agentLine "world",
         threadLine "abc123", turnCompletedLine]
        (WaitOutcome.exited true "st")).agent_messages = some "Hello world" := by
  exact ⟨rfl, rfl, rfl, rfl, rfl⟩

/-- Finalization on a state with no session identity but a non-empty reply:
the verdict fails, the missing-session annotation sits at the very front of
the error text, and the reply is still included. -/
theorem finalize_missing_session (s : RunState) (ht : s.thread_id = none)
    (ha : s.agent_messages ≠ "") :
    (finalize s).success = false ∧
    (∃ rest, (finalize s).error =
      some ("Failed to get `SESSION_ID` from the codex session.\n\n" ++ rest)) ∧
    (finalize s).agent_messages = some s.agent_messages := by
  rcases s with ⟨am, ag, tid, em, suc⟩
  simp only at ht ha
  subst ht
  have hbeq : (ag == "") = false := by simp [ha]
  refine ⟨?_, ⟨em, ?_⟩, ?_⟩ <;> simp [finalize, hbeq]

/-- A concrete state whose verdict is already false. -/
def sFalse : RunState :=
  { all_messages := none
    agent_messages := ""
    thread_id := none
    err_message := ""
    success := false }

/-- C8: when no thread_id is ever observed and a non-empty reply was captured,
the run fails, the missing-session annotation is the first annotation of the
error text, and the captured reply is still returned. -/
theorem missing_session_identity (retain : Bool) (lines : List Line) (w : WaitOutcome)
    (hthread : (runLines (initState retain) lines).thread_id = none)
    (hagent : (runLines (initState retain) lines).agent_messages ≠ "") :
    (execFromLines retain lines w).success = false ∧
    (∃ rest, (execFromLines retain lines w).error =
      some ("Failed to get `SESSION_ID` from the codex session.\n\n" ++ rest)) ∧
    (execFromLines retain lines w).agent_messages =
      some (runLines (initState retain) lines).agent_messages := by
  have ht : (applyWait (runLines (initState retain) lines) w).thread_id = none := by
    rw [applyWait_thread_id]
    exact hthread
  have ha : (applyWait (runLines (initState retain) lines) w).agent_messages =
      (runLines (initState retain) lines).agent_messages :=
    applyWait_agent_messages _ _
  have h := finalize_missing_session (applyWait (runLines (initState retain) lines) w) ht
    (by rw [ha]; exact hagent)
  refine ⟨h.1, h.2.1, ?_⟩
  rw [show (execFromLines retain lines w).agent_messages =
    (finalize (applyWait (runLines (initState retain) lines) w)).agent_messages from rfl,
    h.2.2, ha]

/-- Witness for C8 at the stream consisting of one agent message. -/
theorem missing_session_identity_witness :
    (execFromLines false [agentLine "Hello"] (WaitOutcome.exited true "ok")).success = false ∧
    (∃ rest, (execFromLines false [agentLine "Hello"] (WaitOutcome.exited true "ok")).error =
      some ("Failed to get `SESSION_ID` from the codex session.\n\n" ++ rest)) ∧
    (execFromLines false [agentLine "Hello"] (WaitOutcome.exited true "ok")).agent_messages =
      some (runLines (initState false) [agentLine "Hello"]).agent_messages :=
  missing_session_identity false [agentLine "Hello"] (WaitOutcome.exited true "ok")
    rfl (by decide)

/-- C9: the verdict starts true, every per-line step, wait step and
finalization step preserves falseness (never reassigns true), and the final
verdict is true exactly when no failure signal occurred: the fold kept the
verdict, the wait was a clean in-time exit, and both postconditions hold. -/
theorem success_monotone (retain : Bool) (lines : List Line) (w : WaitOutcome) :
    (initState retain).success = true ∧
    (∀ (s : RunState) (l : Line), s.success = false → ((processLine s l).1).success = false) ∧
    (∀ (s : RunState) (w2 : WaitOutcome), s.success = false → (applyWait s w2).success = false) ∧
    (∀ (s : RunState), s.success = false → (finalize s).success = false) ∧
    ((execFromLines retain lines w).success = true ↔
      ((runLines (initState retain) lines).success = true ∧ waitClean w = true ∧
       (runLines (initState retain) lines).thread_id.isSome = true ∧
       (runLines (initState retain) lines).agent_messages ≠ "")) := by
  refine ⟨rfl, fun s l h => processLine_success_mono s l h, fun s w2 h => ?_, fun s h => ?_, ?_⟩
  · rw [applyWait_success, h]
    simp
  · cases hf : (finalize s).success with
    | false => rfl
    | true =>
      have := (finalize_success_iff s).mp hf
      rw [h] at this
      exact absurd this.1 (by simp)
  · rw [show (execFromLines retain lines w).success =
      (finalize (applyWait (runLines (initState retain) lines) w)).success from rfl,
      finalize_success_iff, applyWait_success, applyWait_thread_id, applyWait_agent_messages,
      Bool.and_eq_true, and_assoc]

/-- Witness for C9: a step from an already failing state stays failing. -/
theorem success_monotone_witness :
    ((processLine sFalse (Line.err "e" "raw")).1).success = false :=
  (success_monotone false [] WaitOutcome.timedOut).2.1 sFalse (Line.err "e" "raw") rfl

/-- C4: the tool wrapper always answers with a structured result: an error
from execute_codex becomes success=false with the error display string, and a
result built from the stream core has an error text exactly when it fails. -/
theorem tool_returns_structured_result (e : CodexError) (retain : Bool)
    (lines : List Line) (w : WaitOutcome) :
    (codexWrap (Except.error e)).success = false ∧
    (codexWrap (Except.error e)).error = some e.toString ∧
    ((codexWrap (Except.ok (execFromLines retain lines w))).success = false ↔
      (codexWrap (Except.ok (execFromLines retain lines w))).error.isSome = true) := by
  refine ⟨rfl, rfl, ?_⟩
  show (execFromLines retain lines w).success = false ↔
    (execFromLines retain lines w).error.isSome = true
  have h : (execFromLines retain lines w).error.isSome =
      !(execFromLines retain lines w).success :=
    finalize_error_isSome (applyWait (runLines (initState retain) lines) w)
  cases hsucc : (execFromLines retain lines w).success <;> simp [h, hsucc]

/-- Parameters with a whitespace-only model override. -/
def wsModelParams : CodexParams :=
  { prompt := "do it"
    cd := "/tmp"
    sandbox := SandboxPolicy.readOnly
    session_id := none
    skip_git_repo_check := true
    return_all_messages := false
    image := []
    model := some "  "
    yolo := false
    profile := none }

/-- Counterexample to C2: the override "  " trims to the empty string, yet the
source only tests `is_empty` without trimming, so the --model flag is passed. -/
theorem model_flag_whitespace_cex :
    trimStr "  " = "" ∧
    buildArgs wsModelParams =
      ["exec", "--sandbox", "read-only", "--cd", "/tmp", "--json",
       "--model", "  ", "--skip-git-repo-check", "--", "do it"] ∧
    "--model" ∈ buildArgs wsModelParams := by
  refine ⟨by decide, rfl, by decide⟩

/-- C2 (amended): the model and profile flag chunks sit in the argument
vector, and such a chunk is empty exactly when the override is absent or the
empty string, with no trimming: any other value, including whitespace-only
strings, is passed verbatim after the flag. -/
theorem model_profile_flag_iff (p : CodexParams) (f : String) (v : Option String) :
    (∃ pre post, buildArgs p =
      pre ++ (optFlag "--model" p.model ++ (optFlag "--profile" p.profile ++ post))) ∧
    (optFlag f v = [] ↔ (v = none ∨ v = some "")) ∧
    (∀ m, v = some m → m ≠ "" → optFlag f v = [f, m]) := by
  refine ⟨?_, ?_, ?_⟩
  · refine ⟨["exec", "--sandbox", p.sandbox.asStr, "--cd", p.cd, "--json"] ++
      (if p.image.isEmpty then [] else ["--image", String.intercalate "," p.image]),
      (if p.yolo then ["--yolo"] else []) ++
        ((if p.skip_git_repo_check then ["--skip-git-repo-check"] else []) ++
          (resumeArgs p.session_id ++ ["--", p.prompt])), ?_⟩
    simp [buildArgs, List.append_assoc]
  · cases v with
    | none => simp [optFlag]
    | some m =>
      by_cases hm : m = "" <;> simp [optFlag, hm]
  · intro m hv hm
    subst hv
    simp [optFlag, hm]

/-- Witness for the amended C2 at the whitespace-only override. -/
theorem model_profile_flag_iff_witness :
    optFlag "--model" (some "  ") = ["--model", "  "] :=
  (model_profile_flag_iff wsModelParams "--model" (some "  ")).2.2 "  " rfl (by decide)

/-- A line whose type contains both "fail" and "error", with a top-level
message. -/
def failErrorLine : Line :=
  Line.ok (Json.obj [("type", Json.str "fail_error"), ("message", Json.str "boom")])

/-- Counterexample to C3: on a line whose type contains "fail" (and also
"error") with a top-level message, the source runs both branches — the
top-level message is appended as a second annotation, so the branches are not
mutually exclusive. -/
theorem fail_error_not_exclusive_cex :
    strContainsSub "fail_error" "fail" = true ∧
    strContainsSub "fail_error" "error" = true ∧
    ((processLine (initState false) failErrorLine).1).success = false ∧
    ((processLine (initState false) failErrorLine).1).err_message =
      "\n\n[codex error] boom" := by
  refine ⟨rfl, rfl, rfl, rfl⟩

/-- C3 (amended): the fail and error branches are independent: on a line whose
type contains both substrings and whose top-level message does not start with
"Reconnecting...", the failure branch flips the verdict and the error branch
additionally appends the top-level message as an annotation. -/
theorem fail_and_error_both_apply (s : RunState) (t m : String)
    (hfail : strContainsSub t "fail" = true)
    (herror : strContainsSub t "error" = true)
    (hrec : strStartsWith m "Reconnecting..." = false) :
    processLine s (Line.ok (Json.obj [("type", Json.str t), ("message", Json.str m)])) =
      ({ s with
          all_messages := s.all_messages.map
            (fun a => a ++ [Json.obj [("type", Json.str t), ("message", Json.str m)]])
          success := false
          err_message := s.err_message ++ "\n\n[codex error] " ++ m },
        t == "turn.completed") := by
  simp [processLine, Json.get, Json.asStr, List.lookup, hfail, herror, hrec]

/-- Witness for the amended C3 at the concrete line. -/
theorem fail_and_error_both_apply_witness :
    processLine sFalse (Line.ok (Json.obj [("type", Json.str "fail_error"), ("message", Json.str "boom")])) =
      ({ sFalse with
          all_messages := sFalse.all_messages.map
            (fun a => a ++ [Json.obj [("type", Json.str "fail_error"), ("message", Json.str "boom")]])
          success := false
          err_message := sFalse.err_message ++ "\n\n[codex error] " ++ "boom" },
        ("fail_error" == "turn.completed")) :=
  fail_and_error_both_apply sFalse "fail_error" "boom" rfl rfl (by decide)

/-- A reconnect-notice line whose type also contains "fail". -/
def errorFailReconnectLine : Line :=
  Line.ok (Json.obj [("type", Json.str "error_fail"), ("message", Json.str "Reconnecting...")])

/-- Counterexample to C6: a line whose type contains "error" and whose message
starts with "Reconnecting..." does flip the verdict when the type also
contains "fail", because the failure branch runs before the reconnect skip. -/
theorem reconnect_flips_on_fail_cex :
    strContainsSub "error_fail" "error" = true ∧
    strStartsWith "Reconnecting..." "Reconnecting..." = true ∧
    ((processLine (initState false) errorFailReconnectLine).1).success = false := by
  refine ⟨rfl, by decide, rfl⟩

/-- The reconnect-notice line of the C6 scenario. -/
def reconnectLine : Line :=
  Line.ok (Json.obj [("type", Json.str "error"), ("message", Json.str "Reconnecting...")])

/-- C6 (amended): a line whose type contains "error" but not "fail" and whose
message starts with "Reconnecting..." leaves the verdict and the error log
untouched (only retention sees it), and the concrete reconnect-then-complete
stream still yields success=true. -/
theorem reconnect_noise_ignored (s : RunState) (t m : String)
    (herror : strContainsSub t "error" = true)
    (hfail : strContainsSub t "fail" = false)
    (hrec : strStartsWith m "Reconnecting..." = true) :
    processLine s (Line.ok (Json.obj [("type", Json.str t), ("message", Json.str m)])) =
      ({ s with
          all_messages := s.all_messages.map
            (fun a => a ++ [Json.obj [("type", Json.str t), ("message", Json.str m)]]) },
        false) ∧
    execFromLines false [reconnectLine, agentLine "hi", threadLine "abc123", turnCompletedLine]
      (WaitOutcome.exited true "ok") =
      { success := true
        session_id := some "abc123"
        agent_messages := some "hi"
        error := none
        all_messages := none } := by
  constructor
  · simp [processLine, Json.get, Json.asStr, List.lookup, herror, hfail, hrec]
  · rfl

/-- Witness for the amended C6 at the plain reconnect line. -/
theorem reconnect_noise_ignored_witness :
    processLine (initState false)
      (Line.ok (Json.obj [("type", Json.str "error"), ("message", Json.str "Reconnecting...")])) =
      ({ initState false with
          all_messages := (initState false).all_messages.map
            (fun a => a ++ [Json.obj [("type", Json.str "error"), ("message", Json.str "Reconnecting...")]]) },
        false) :=
  (reconnect_noise_ignored (initState false) "error" "Reconnecting..." rfl rfl (by decide)).1

/-- C10: a request that omits the sandbox policy and the repository-presence
bypass deserializes to read-only and true, so the child is invoked with
"--sandbox read-only" and with "--skip-git-repo-check" in the argument
vector. -/
theorem omitted_fields_defaults (r : CodexRequest)
    (hs : r.sandbox = none) (hg : r.skip_git_repo_check = none) :
    (∃ t, buildArgs (deserializeParams r) =
      "exec" :: "--sandbox" :: "read-only" :: "--cd" :: r.cd :: "--json" :: t) ∧
    "--skip-git-repo-check" ∈ buildArgs (deserializeParams r) := by
  constructor
  · refine ⟨(if (r.image.getD []).isEmpty then []
        else ["--image", String.intercalate "," (r.image.getD [])]) ++
      (optFlag "--model" r.model ++
        (optFlag "--profile" r.profile ++
          ((if r.yolo.getD false then ["--yolo"] else []) ++
            (["--skip-git-repo-check"] ++
              (resumeArgs r.session_id ++ ["--", r.prompt]))))), ?_⟩
    simp [buildArgs, deserializeParams, hs, hg, default_true, SandboxPolicy.asStr,
      List.append_assoc]
  · simp [buildArgs, deserializeParams, hg, default_true, List.mem_append]

/-- Witness for C10 at a fully concrete omitted-fields request. -/
theorem omitted_fields_defaults_witness :
    (∃ t, buildArgs (deserializeParams
      { prompt := "hi", cd := "/w", sandbox := none, session_id := none,
        skip_git_repo_check := none, return_all_messages := none, image := none,
        model := none, yolo := none, profile := none }) =
      "exec" :: "--sandbox" :: "read-only" :: "--cd" :: "/w" :: "--json" :: t) ∧
    "--skip-git-repo-check" ∈ buildArgs (deserializeParams
      { prompt := "hi", cd := "/w", sandbox := none, session_id := none,
        skip_git_repo_check := none, return_all_messages := none, image := none,
        model := none, yolo := none, profile := none }) :=
  omitted_fields_defaults
    { prompt := "hi", cd := "/w", sandbox := none, session_id := none,
      skip_git_repo_check := none, return_all_messages := none, image := none,
      model := none, yolo := none, profile := none } rfl rfl
